import Mathlib

/-!
Verification of the sociaLazy backend core: the like/unlike
toggle-and-notify protocol, the authentication gate, the notification
preview rendering, and the posts route dispatch order.

Definitions are a shallow embedding of the JavaScript sources:
src/routes/posts.js, src/routes/users.js (with the auth middleware
appended), and the comments and notifications routers. Document ids and
user ids are modelled as strings; the document store is a record of
lists; JSON response bodies are modelled by an explicit Json type.
-/

namespace SociaLazy

/-- Minimal model of the JSON values the handlers serialize. -/
inductive Json where
  | str (s : String)
  | num (n : Int)
  | bool (b : Bool)
  | arr (xs : List Json)
  | obj (fields : List (String × Json))

/-- Looks up a top-level field of a JSON object; none on non-objects. -/
def Json.getField : Json → String → Option Json
  | Json.obj fields, k => (fields.find? (fun f => f.1 = k)).map (fun f => f.2)
  | _, _ => none

/-- Post document (models/Post): owner reference, content, likes set,
comment references. The id stands for the Mongo _id. -/
structure Post where
  id : String
  user : String
  content : String
  likes : List String
  comments : List String
deriving DecidableEq

/-- Comment document (models/Comment): owner, parent post, content, likes. -/
structure Comment where
  id : String
  user : String
  post : String
  content : String
  likes : List String
deriving DecidableEq

/-- Notification document, from the schema in models/Notification.js:
recipient, sender, post reference, a type tag restricted to like or
comment, a rendered content string, and a read flag defaulting to false. -/
structure Notification where
  recipient : String
  sender : String
  post : String
  type : String
  content : String
  read : Bool
deriving DecidableEq

/-- The document store: the Users, Posts, Comments and Notifications
collections (user documents are reduced to their ids, which is all the
modelled handlers consult). -/
structure DB where
  users : List String
  posts : List Post
  comments : List Comment
  notifs : List Notification
deriving DecidableEq

/-- Hex digit test used by the ObjectId validity check. -/
def isHexDigit (c : Char) : Bool :=
  c.isDigit || (97 ≤ c.toNat && c.toNat ≤ 102) || (65 ≤ c.toNat && c.toNat ≤ 70)

/-- A valid Mongo ObjectId string is exactly 24 hexadecimal characters. -/
def isValidObjectId (s : String) : Bool :=
  s.length == 24 && s.data.all isHexDigit

/-- Models Mongoose Model.findById on the posts collection: a lookup with
an id that is not a valid ObjectId rejects with a CastError (surfaced to
the handlers as a thrown error, hence the Except); otherwise it returns
the document with that id, if any. -/
def findPostById (posts : List Post) (id : String) : Except String (Option Post) :=
  if isValidObjectId id then Except.ok (posts.find? (fun p => p.id == id))
  else Except.error "CastError"

/-- Models Mongoose Model.findById on the comments collection. -/
def findCommentById (comments : List Comment) (id : String) : Except String (Option Comment) :=
  if isValidObjectId id then Except.ok (comments.find? (fun c => c.id == id))
  else Except.error "CastError"

/-- JavaScript String.prototype.substring(0, n), on the character list. -/
def substringTo (s : String) (n : Nat) : String :=
  String.mk (s.data.take n)

/-- Content preview used by notification rendering: first 30 characters,
with an ellipsis appended exactly when the source exceeds 30 characters.
This is the inline expression at posts.js line 226 and in the comments
router (comment creation, line 33). -/
def preview (s : String) : String :=
  substringTo s 30 ++ (if 30 < s.length then "..." else "")

/-- Content of a like notification (posts.js line 226). -/
def likeNotifContent (content username : String) : String :=
  "\"" ++ preview content ++ "\" liked by " ++ username

/-- Content of a comment notification (comments router line 33). -/
def commentNotifContent (postContent username commentContent : String) : String :=
  "\"" ++ preview postContent ++ "\" commented by " ++ username ++ ": \""
    ++ preview commentContent ++ "\""

/-- The notification document the post like handler saves on a rising
edge by a non-owner (posts.js lines 228-234). -/
def mkLikeNotif (post : Post) (userId username : String) : Notification :=
  { recipient := post.user
    sender := userId
    post := post.id
    type := "like"
    content := likeNotifContent post.content username
    read := false }

/-- The notification document the comment creation handler saves when the
post owner is not the commenter (comments router lines 35-41). -/
def mkCommentNotif (post : Post) (userId username ccontent : String) : Notification :=
  { recipient := post.user
    sender := userId
    post := post.id
    type := "comment"
    content := commentNotifContent post.content username ccontent
    read := false }

/-- The atomic update issued by findOneAndUpdate in the like handlers:
a pull of userId when hasLiked was observed, else an addToSet of userId.
The addToSet re-checks membership against the document it is applied to,
matching the set-insert semantics of the store operator. -/
def applyAtomic (hasLiked : Bool) (userId : String) (likes : List String) : List String :=
  if hasLiked then likes.filter (fun x => x != userId)
  else if likes.contains userId then likes else likes ++ [userId]

/-- Serialization of a post document as the handlers respond with it. -/
def postToJson (p : Post) : Json :=
  Json.obj [("_id", Json.str p.id), ("user", Json.str p.user),
    ("content", Json.str p.content),
    ("likes", Json.arr (p.likes.map Json.str)),
    ("comments", Json.arr (p.comments.map Json.str))]

/-- Serialization of a comment document. -/
def commentToJson (c : Comment) : Json :=
  Json.obj [("_id", Json.str c.id), ("user", Json.str c.user),
    ("post", Json.str c.post), ("content", Json.str c.content),
    ("likes", Json.arr (c.likes.map Json.str))]

/-- Outcome of one handler invocation: HTTP status, response body, the
store after the request, and the action string the handler logs to the
console (none when the handler exits before the log statement). -/
structure Outcome where
  status : Nat
  body : Json
  db : DB
  loggedAction : Option String

/-- Like/Unlike post handler, PUT /posts/like/:id (posts.js lines
192-253). Reads the post, computes hasLiked from that pre-read document,
issues the atomic pull/addToSet, creates a like notification exactly when
the pre-read showed not-liked and the owner differs from the acting user,
and responds with the updated post document. A CastError from the lookup
falls into the catch block and yields a 500. -/
def likePost (db : DB) (userId username postId : String) : Outcome :=
  match findPostById db.posts postId with
  | Except.error _ =>
      ⟨500, Json.obj [("message", Json.str "Server error")], db, none⟩
  | Except.ok none =>
      ⟨404, Json.obj [("message", Json.str "Post not found")], db, none⟩
  | Except.ok (some post) =>
      let hasLiked := post.likes.contains userId
      let updatedPost := { post with likes := applyAtomic hasLiked userId post.likes }
      let posts := db.posts.map (fun p =>
        if p.id == postId then { p with likes := applyAtomic hasLiked userId p.likes } else p)
      let notifs :=
        if !hasLiked && post.user != userId then db.notifs ++ [mkLikeNotif post userId username]
        else db.notifs
      ⟨200, postToJson updatedPost, { db with posts := posts, notifs := notifs },
        some (if hasLiked then "UNLIKED" else "LIKED")⟩

/-- Like/Unlike comment handler, PUT /comments/like/:id (comments router
lines 117-158). Same toggle structure as the post handler, responding
with the updated comment; the handler contains no notification write. -/
def likeComment (db : DB) (userId commentId : String) : Outcome :=
  match findCommentById db.comments commentId with
  | Except.error _ =>
      ⟨500, Json.obj [("message", Json.str "Server error")], db, none⟩
  | Except.ok none =>
      ⟨404, Json.obj [("message", Json.str "Comment not found")], db, none⟩
  | Except.ok (some comment) =>
      let hasLiked := comment.likes.contains userId
      let updatedComment := { comment with likes := applyAtomic hasLiked userId comment.likes }
      let comments := db.comments.map (fun c =>
        if c.id == commentId then { c with likes := applyAtomic hasLiked userId c.likes } else c)
      ⟨200, commentToJson updatedComment, { db with comments := comments },
        some (if hasLiked then "unliked" else "liked")⟩

/-- Comment creation handler, POST /comments/:postId (comments router
lines 9-51): creates the comment, appends its id to the post, and when
the post owner is not the commenter creates a comment notification whose
content is rendered from the truncated previews. The fresh comment id is
passed in, standing for the id Mongo assigns. -/
def createComment (db : DB) (userId username postId ccontent cid : String) : Outcome :=
  match findPostById db.posts postId with
  | Except.error _ =>
      ⟨500, Json.obj [("message", Json.str "Server error")], db, none⟩
  | Except.ok none =>
      ⟨404, Json.obj [("message", Json.str "Post not found")], db, none⟩
  | Except.ok (some post) =>
      let comment : Comment := ⟨cid, userId, postId, ccontent, []⟩
      let posts := db.posts.map (fun p =>
        if p.id == postId then { p with comments := p.comments ++ [cid] } else p)
      let notifs :=
        if post.user != userId then db.notifs ++ [mkCommentNotif post userId username ccontent]
        else db.notifs
      ⟨201, commentToJson comment,
        { db with posts := posts, comments := db.comments ++ [comment], notifs := notifs },
        none⟩

/-- Outcome of resolving the Authorization header and verifying the
token, before the user lookup: the header may be absent, the token
expired (TokenExpiredError), the token malformed (JsonWebTokenError), or
verification may succeed and yield the userId baked into the token. -/
inductive Credential where
  | missing
  | expired
  | malformed
  | resolved (userId : String)

/-- Body shape of an auth failure response. -/
structure AuthErrorBody where
  success : Bool
  message : String
  error : String
deriving DecidableEq

/-- The auth middleware (middleware/auth.js, appended to users.js in the
source pack, lines 223-273): each failure path responds 401 with a
structured body; on success the resolved user is attached to the request. -/
def authMiddleware (users : List String) (c : Credential) : Except (Nat × AuthErrorBody) String :=
  match c with
  | Credential.missing =>
      Except.error (401, ⟨false, "No authentication token provided", "AUTH_TOKEN_MISSING"⟩)
  | Credential.expired =>
      Except.error (401, ⟨false, "Token has expired", "TOKEN_EXPIRED"⟩)
  | Credential.malformed =>
      Except.error (401, ⟨false, "Invalid token", "INVALID_TOKEN"⟩)
  | Credential.resolved userId =>
      if users.contains userId then Except.ok userId
      else Except.error (401, ⟨false, "User not found", "USER_NOT_FOUND"⟩)

/-- The pure likes-set transformation one sequential call of the like
handler applies to the target document: hasLiked is read off the same
list the update is applied to, so the branch taken is pull when the user
is present and an (effective) append when absent. -/
def toggleLikes (userId : String) (likes : List String) : List String :=
  if likes.contains userId then likes.filter (fun x => x != userId)
  else likes ++ [userId]

/-- One segment of an Express route pattern: a literal or a named param. -/
inductive Seg where
  | lit (s : String)
  | param (name : String)

/-- Matches a pattern against a path split into segments, returning the
captured params on success. -/
def matchSegs : List Seg → List String → Option (List (String × String))
  | [], [] => some []
  | Seg.lit s :: ps, x :: xs => if s == x then matchSegs ps xs else none
  | Seg.param n :: ps, x :: xs => (matchSegs ps xs).map (fun captured => (n, x) :: captured)
  | _, _ => none

/-- Tags for the GET handlers registered on the posts router. -/
inductive PostsGetHandler where
  | index
  | search
  | userPosts
  | single
  | trending
deriving DecidableEq

/-- The GET routes of posts.js in registration order: / (line 34),
/search (line 61), /user/:userId (line 100), /:id (line 114), and
/trending (line 256) last. -/
def postsGetRoutes : List (List Seg × PostsGetHandler) :=
  [([], PostsGetHandler.index),
   ([Seg.lit "search"], PostsGetHandler.search),
   ([Seg.lit "user", Seg.param "userId"], PostsGetHandler.userPosts),
   ([Seg.param "id"], PostsGetHandler.single),
   ([Seg.lit "trending"], PostsGetHandler.trending)]

/-- Express dispatch: the first registered route whose pattern matches
the path handles the request. -/
def dispatchRoutes {α : Type} (routes : List (List Seg × α)) (path : List String) :
    Option (α × List (String × String)) :=
  match routes with
  | [] => none
  | (pat, h) :: rest =>
      match matchSegs pat path with
      | some captured => some (h, captured)
      | none => dispatchRoutes rest path

/-- Single post handler, GET /posts/:id (posts.js lines 114-128): 404
when the post is absent, 500 from the catch block when the lookup throws
(in particular the CastError on an id that is not a valid ObjectId),
otherwise the post document. Returns status and body. -/
def getSinglePost (db : DB) (id : String) : Nat × Json :=
  match findPostById db.posts id with
  | Except.error _ => (500, Json.obj [("message", Json.str "Server error")])
  | Except.ok none => (404, Json.obj [("message", Json.str "Post not found")])
  | Except.ok (some p) => (200, postToJson p)

/-- Per-request context of a like request: acting user, display name,
target post. -/
structure ReqCtx where
  userId : String
  username : String
  postId : String

/-- Phase of one in-flight like request. The handler suspends at each
store round-trip, so it advances in two store-visible steps: the
findById read (capturing hasLiked and the post snapshot), then the
findOneAndUpdate plus the conditional notification save. -/
inductive ReqPhase where
  | start
  | readDone (hasLiked : Bool) (snapshot : Post)
  | finished

/-- Advances one like request by one store step against the current db. -/
def stepReq (ctx : ReqCtx) (db : DB) : ReqPhase → DB × ReqPhase
  | ReqPhase.start =>
      match findPostById db.posts ctx.postId with
      | Except.error _ => (db, ReqPhase.finished)
      | Except.ok none => (db, ReqPhase.finished)
      | Except.ok (some post) =>
          (db, ReqPhase.readDone (post.likes.contains ctx.userId) post)
  | ReqPhase.readDone hasLiked post =>
      let posts := db.posts.map (fun p =>
        if p.id == ctx.postId then { p with likes := applyAtomic hasLiked ctx.userId p.likes }
        else p)
      let notifs :=
        if !hasLiked && post.user != ctx.userId then
          db.notifs ++ [mkLikeNotif post ctx.userId ctx.username]
        else db.notifs
      ({ db with posts := posts, notifs := notifs }, ReqPhase.finished)
  | ReqPhase.finished => (db, ReqPhase.finished)

/-- System state for two concurrent like requests. -/
structure Sys where
  db : DB
  r1 : ReqPhase
  r2 : ReqPhase

/-- Advances the request picked by the scheduler (false is the first
request, true the second). -/
def stepSys (c1 c2 : ReqCtx) (s : Sys) (pick : Bool) : Sys :=
  if pick then
    let next := stepReq c2 s.db s.r2
    { db := next.1, r1 := s.r1, r2 := next.2 }
  else
    let next := stepReq c1 s.db s.r1
    { db := next.1, r1 := next.2, r2 := s.r2 }

/-- Runs an interleaving schedule to its final system state. -/
def runSched (c1 c2 : ReqCtx) (s : Sys) : List Bool → Sys
  | [] => s
  | pick :: rest => runSched c1 c2 (stepSys c1 c2 s pick) rest

/-- The sequence of store states an interleaving schedule passes through. -/
def dbTrace (c1 c2 : ReqCtx) (s : Sys) : List Bool → List DB
  | [] => [s.db]
  | pick :: rest => s.db :: dbTrace c1 c2 (stepSys c1 c2 s pick) rest

/-- Whether userId is in the likes set of the post postId in the store. -/
def memberLikes (db : DB) (userId postId : String) : Bool :=
  match db.posts.find? (fun p => p.id == postId) with
  | some p => p.likes.contains userId
  | none => false

/-- Number of genuine rising edges (not-liked to liked transitions) of a
given user on a given post along a trace of store states. -/
def risingEdges (userId postId : String) : List DB → Nat
  | d1 :: d2 :: rest =>
      (if !memberLikes d1 userId postId && memberLikes d2 userId postId then 1 else 0)
        + risingEdges userId postId (d2 :: rest)
  | _ => 0

/-! Concrete fixtures used by witnesses and counterexamples. Post and
comment ids are 24 hexadecimal characters, as Mongo ObjectIds are. -/

/-- A valid post ObjectId used in concrete scenarios. -/
def pidA : String := "aaaaaaaaaaaaaaaaaaaaaaaa"

/-- A valid but absent post ObjectId. -/
def pidB : String := "bbbbbbbbbbbbbbbbbbbbbbbb"

/-- A valid comment ObjectId used in concrete scenarios. -/
def cidA : String := "cccccccccccccccccccccccc"

/-- A valid but absent comment ObjectId. -/
def cidD : String := "dddddddddddddddddddddddd"

/-- Post P1 of the spec scenario: owner u1, content Hello world, no likes. -/
def exPost : Post := ⟨pidA, "u1", "Hello world", [], []⟩

/-- A comment by u1 on P1 with no likes. -/
def exComment : Comment := ⟨cidA, "u1", pidA, "Nice post", []⟩

/-- Store holding users u1 and u2, post P1 and one comment, no notifications. -/
def exDB : DB := ⟨["u1", "u2"], [exPost], [exComment], []⟩

/-! Unfolding lemmas for the handlers. -/

/-- Shape of the post like handler outcome when the lookup finds the post. -/
theorem likePost_found (db : DB) (uid un pid : String) (post : Post)
    (hfind : findPostById db.posts pid = Except.ok (some post)) :
    likePost db uid un pid =
      ⟨200,
        postToJson { post with likes := applyAtomic (post.likes.contains uid) uid post.likes },
        ⟨db.users,
          db.posts.map (fun p =>
            if p.id == pid then
              { p with likes := applyAtomic (post.likes.contains uid) uid p.likes }
            else p),
          db.comments,
          if !(post.likes.contains uid) && post.user != uid then
            db.notifs ++ [mkLikeNotif post uid un]
          else db.notifs⟩,
        some (if post.likes.contains uid then "UNLIKED" else "LIKED")⟩ := by
  unfold likePost
  rw [hfind]

/-- Shape of the comment like handler outcome when the lookup finds the
comment. -/
theorem likeComment_found (db : DB) (uid cid : String) (comment : Comment)
    (hfind : findCommentById db.comments cid = Except.ok (some comment)) :
    likeComment db uid cid =
      ⟨200,
        commentToJson
          { comment with likes := applyAtomic (comment.likes.contains uid) uid comment.likes },
        ⟨db.users, db.posts,
          db.comments.map (fun c =>
            if c.id == cid then
              { c with likes := applyAtomic (comment.likes.contains uid) uid c.likes }
            else c),
          db.notifs⟩,
        some (if comment.likes.contains uid then "unliked" else "liked")⟩ := by
  unfold likeComment
  rw [hfind]

/-- C1: a like toggle by an authenticated non-owner creates, on the 0 to 1
rising edge (acting user absent from the likes set before the call),
exactly one Notification of type like with the post owner as recipient
and the acting user as sender; on the 1 to 0 edge it creates none. -/
theorem likePost_notifies_only_on_rising_edge
    (db : DB) (uid un pid : String) (post : Post)
    (hfind : findPostById db.posts pid = Except.ok (some post))
    (howner : post.user ≠ uid) :
    (post.likes.contains uid = false →
      (likePost db uid un pid).db.notifs =
        db.notifs ++ [⟨post.user, uid, post.id, "like",
          likeNotifContent post.content un, false⟩]) ∧
    (post.likes.contains uid = true →
      (likePost db uid un pid).db.notifs = db.notifs) := by
  rw [likePost_found db uid un pid post hfind]
  constructor <;> intro h <;> simp at h <;> simp [h, mkLikeNotif, bne_iff_ne, howner]

/-- Witness for C1 at the spec scenario: u2 likes post P1 owned by u1
(rising edge, one like notification), instantiating both hypotheses. -/
theorem likePost_notifies_only_on_rising_edge_witness :
    (findPostById exDB.posts pidA = Except.ok (some exPost) ∧ exPost.user ≠ "u2") ∧
    ((exPost.likes.contains "u2" = false →
      (likePost exDB "u2" "U2" pidA).db.notifs =
        exDB.notifs ++ [⟨exPost.user, "u2", exPost.id, "like",
          likeNotifContent exPost.content "U2", false⟩]) ∧
    (exPost.likes.contains "u2" = true →
      (likePost exDB "u2" "U2" pidA).db.notifs = exDB.notifs)) :=
  ⟨⟨rfl, by decide⟩,
    likePost_notifies_only_on_rising_edge exDB "u2" "U2" pidA exPost rfl (by decide)⟩

/-- C4: a like toggle by the entity owner never creates a Notification,
in either transition direction. -/
theorem likePost_no_self_notify
    (db : DB) (uid un pid : String) (post : Post)
    (hfind : findPostById db.posts pid = Except.ok (some post))
    (howner : post.user = uid) :
    (likePost db uid un pid).db.notifs = db.notifs := by
  rw [likePost_found db uid un pid post hfind]
  simp [howner]

/-- Witness for C4: u1 toggles a like on their own post P1; no
notification is created. -/
theorem likePost_no_self_notify_witness :
    findPostById exDB.posts pidA = Except.ok (some exPost) ∧ exPost.user = "u1" ∧
    (likePost exDB "u1" "U1" pidA).db.notifs = exDB.notifs :=
  ⟨rfl, rfl, likePost_no_self_notify exDB "u1" "U1" pidA exPost rfl rfl⟩

/-- C8: a like toggle on an absent entity (post or comment) responds 404
and leaves the store exactly as it was: no likes set is modified and no
notification is created. -/
theorem like_absent_entity_404_state_unchanged
    (db : DB) (uid un pid cid : String)
    (hpost : findPostById db.posts pid = Except.ok none)
    (hcomment : findCommentById db.comments cid = Except.ok none) :
    ((likePost db uid un pid).status = 404 ∧ (likePost db uid un pid).db = db) ∧
    ((likeComment db uid cid).status = 404 ∧ (likeComment db uid cid).db = db) := by
  unfold likePost likeComment
  rw [hpost, hcomment]
  exact ⟨⟨rfl, rfl⟩, ⟨rfl, rfl⟩⟩

/-- Witness for C8: liking the absent post pidB and the absent comment
cidD against the example store returns 404 twice and leaves it unchanged. -/
theorem like_absent_entity_404_state_unchanged_witness :
    (findPostById exDB.posts pidB = Except.ok none ∧
      findCommentById exDB.comments cidD = Except.ok none) ∧
    (((likePost exDB "u2" "U2" pidB).status = 404 ∧ (likePost exDB "u2" "U2" pidB).db = exDB) ∧
    ((likeComment exDB "u2" cidD).status = 404 ∧ (likeComment exDB "u2" cidD).db = exDB)) :=
  ⟨⟨rfl, rfl⟩, like_absent_entity_404_state_unchanged exDB "u2" "U2" pidB cidD rfl rfl⟩

/-- C2 counterexample: u2, who is not the owner and has not liked
comment cidA, toggles a like on it (rising edge); the likes set is
updated but zero Notifications are created, refuting that the comment
like route creates exactly one like notification for the owner. -/
theorem likeComment_rising_edge_creates_no_notification
    : exComment.user ≠ "u2" ∧
      exComment.likes.contains "u2" = false ∧
      (likeComment exDB "u2" cidA).status = 200 ∧
      (likeComment exDB "u2" cidA).db.comments =
        [{ exComment with likes := ["u2"] }] ∧
      (likeComment exDB "u2" cidA).db.notifs = [] :=
  ⟨by decide, rfl, rfl, rfl, rfl⟩

/-- C2 amended: the comment like route shares the toggle semantics of the
post like route (404 on an absent comment is C8; on a found comment it
applies the same atomic pull/addToSet and responds 200 with the updated
comment) but it creates no Notification on any transition. -/
theorem likeComment_toggles_like_posts_but_never_notifies
    (db : DB) (uid cid : String) (comment : Comment)
    (hfind : findCommentById db.comments cid = Except.ok (some comment)) :
    (likeComment db uid cid).db.notifs = db.notifs ∧
    (likeComment db uid cid).status = 200 ∧
    (likeComment db uid cid).body =
      commentToJson
        { comment with likes := applyAtomic (comment.likes.contains uid) uid comment.likes } ∧
    (likeComment db uid cid).db.comments =
      db.comments.map (fun c =>
        if c.id == cid then
          { c with likes := applyAtomic (comment.likes.contains uid) uid c.likes }
        else c) := by
  rw [likeComment_found db uid cid comment hfind]
  exact ⟨rfl, rfl, rfl, rfl⟩

/-- Witness for the amended C2: u2 toggles comment cidA; 200, likes set
updated, notifications untouched. -/
theorem likeComment_toggles_like_posts_but_never_notifies_witness :
    findCommentById exDB.comments cidA = Except.ok (some exComment) ∧
    ((likeComment exDB "u2" cidA).db.notifs = exDB.notifs ∧
     (likeComment exDB "u2" cidA).status = 200 ∧
     (likeComment exDB "u2" cidA).body =
       commentToJson
         { exComment with
             likes := applyAtomic (exComment.likes.contains "u2") "u2" exComment.likes } ∧
     (likeComment exDB "u2" cidA).db.comments =
       exDB.comments.map (fun c =>
         if c.id == cidA then
           { c with likes := applyAtomic (exComment.likes.contains "u2") "u2" c.likes }
         else c)) :=
  ⟨rfl, likeComment_toggles_like_posts_but_never_notifies exDB "u2" cidA exComment rfl⟩

/-- C3 counterexample: the response of a successful post like toggle is
the bare updated post document; its body has no action field at all,
refuting that the response carries action = liked or unliked. -/
theorem likePost_response_carries_no_action
    : (likePost exDB "u2" "U2" pidA).status = 200 ∧
      (likePost exDB "u2" "U2" pidA).body = postToJson { exPost with likes := ["u2"] } ∧
      Json.getField (likePost exDB "u2" "U2" pidA).body "action" = none :=
  ⟨rfl, rfl, rfl⟩

/-- C3 amended: a successful toggle responds 200 with the updated post
document only; the liked/unliked action is computed (and written to the
console log) but not included in the response body, whose top-level
fields never include an action key. -/
theorem likePost_returns_post_and_logs_action
    (db : DB) (uid un pid : String) (post : Post)
    (hfind : findPostById db.posts pid = Except.ok (some post)) :
    (likePost db uid un pid).status = 200 ∧
    (likePost db uid un pid).body =
      postToJson { post with likes := applyAtomic (post.likes.contains uid) uid post.likes } ∧
    Json.getField (likePost db uid un pid).body "action" = none ∧
    (likePost db uid un pid).loggedAction =
      some (if post.likes.contains uid then "UNLIKED" else "LIKED") := by
  rw [likePost_found db uid un pid post hfind]
  exact ⟨rfl, rfl, rfl, rfl⟩

/-- Witness for the amended C3: u2 likes post P1; status 200, body is
the updated post, no action field, logged action LIKED. -/
theorem likePost_returns_post_and_logs_action_witness :
    findPostById exDB.posts pidA = Except.ok (some exPost) ∧
    ((likePost exDB "u2" "U2" pidA).status = 200 ∧
     (likePost exDB "u2" "U2" pidA).body =
       postToJson
         { exPost with likes := applyAtomic (exPost.likes.contains "u2") "u2" exPost.likes } ∧
     Json.getField (likePost exDB "u2" "U2" pidA).body "action" = none ∧
     (likePost exDB "u2" "U2" pidA).loggedAction =
       some (if exPost.likes.contains "u2" then "UNLIKED" else "LIKED")) :=
  ⟨rfl, likePost_returns_post_and_logs_action exDB "u2" "U2" pidA exPost rfl⟩

/-- Taking the first 30 characters of a string of at most 30 characters
returns it unchanged. -/
theorem substringTo_of_le (s : String) (h : s.length ≤ 30) : substringTo s 30 = s := by
  obtain ⟨data⟩ := s
  unfold substringTo
  congr 1
  exact List.take_of_length_le h

/-- C5: the notification content preview is the source text itself when
it has at most 30 characters, and the first 30 characters followed by an
ellipsis when it is longer; the like and comment notification contents
are rendered from exactly this preview. -/
theorem notification_preview_truncation (s c un pc cc : String) :
    (s.length ≤ 30 → preview s = s) ∧
    (30 < s.length → preview s = substringTo s 30 ++ "...") ∧
    likeNotifContent c un = "\"" ++ preview c ++ "\" liked by " ++ un ∧
    commentNotifContent pc un cc =
      "\"" ++ preview pc ++ "\" commented by " ++ un ++ ": \"" ++ preview cc ++ "\"" := by
  refine ⟨?_, ?_, rfl, rfl⟩
  · intro h
    unfold preview
    rw [if_neg (by omega), substringTo_of_le s h]
    simp
  · intro h
    unfold preview
    rw [if_pos h]

/-- Witness for C5 at both regimes: an 11-character content is previewed
unmodified; a 31-character content is truncated to 30 plus ellipsis. -/
theorem notification_preview_truncation_witness :
    ("Hello world".length ≤ 30 ∧ preview "Hello world" = "Hello world") ∧
    (30 < "abcdefghijklmnopqrstuvwxyz01234".length ∧
      preview "abcdefghijklmnopqrstuvwxyz01234" =
        substringTo "abcdefghijklmnopqrstuvwxyz01234" 30 ++ "...") :=
  ⟨⟨by decide, (notification_preview_truncation "Hello world" "c" "u" "p" "k").1 (by decide)⟩,
   ⟨by decide,
     (notification_preview_truncation "abcdefghijklmnopqrstuvwxyz01234" "c" "u" "p" "k").2.1
       (by decide)⟩⟩

/-- The branch selection of the atomic update, when hasLiked is read off
the same likes list the update is applied to, is the pure toggle. -/
theorem applyAtomic_self_eq_toggle (u : String) (l : List String) :
    applyAtomic (l.contains u) u l = toggleLikes u l := by
  unfold applyAtomic toggleLikes
  by_cases h : u ∈ l <;> simp [h]

/-- Toggling for an absent user appends that user. -/
theorem toggleLikes_of_not_mem (u : String) (l : List String) (h : u ∉ l) :
    toggleLikes u l = l ++ [u] := by
  unfold toggleLikes
  simp [h]

/-- Toggling for a present user removes every occurrence of that user. -/
theorem toggleLikes_of_mem (u : String) (l : List String) (h : u ∈ l) :
    toggleLikes u l = l.filter (fun x => x != u) := by
  unfold toggleLikes
  simp [h]

/-- Filtering out an absent element is the identity. -/
theorem filter_ne_of_not_mem (u : String) (l : List String) (h : u ∉ l) :
    l.filter (fun x => x != u) = l := by
  apply List.filter_eq_self.mpr
  intro x hx
  simp
  exact fun he => h (he ▸ hx)

/-- Toggling twice starting from an absent user restores the exact list. -/
theorem toggleLikes_twice_of_not_mem (u : String) (l : List String) (h : u ∉ l) :
    toggleLikes u (toggleLikes u l) = l := by
  rw [toggleLikes_of_not_mem u l h,
    toggleLikes_of_mem u (l ++ [u]) (by simp),
    List.filter_append, filter_ne_of_not_mem u l h]
  simp

/-- Toggling twice preserves membership of every element. -/
theorem mem_toggleLikes_twice (u : String) (l : List String) (x : String) :
    x ∈ toggleLikes u (toggleLikes u l) ↔ x ∈ l := by
  by_cases hu : u ∈ l
  · rw [toggleLikes_of_mem u l hu,
      toggleLikes_of_not_mem u _ (by simp)]
    by_cases hxu : x = u <;> simp [List.mem_filter, hxu, hu]
  · rw [toggleLikes_twice_of_not_mem u l hu]

/-- An even number of toggles preserves membership of every element. -/
theorem mem_toggleLikes_iterate_even (u : String) (n : Nat) (l : List String) (x : String) :
    x ∈ (toggleLikes u)^[2 * n] l ↔ x ∈ l := by
  induction n generalizing l with
  | zero => simp
  | succ m ih =>
      have h2 : 2 * (m + 1) = 2 * m + 2 := by ring
      rw [h2, Function.iterate_add_apply]
      rw [ih]
      exact mem_toggleLikes_twice u l x

/-- An even number of toggles from a state where the user is absent
restores the exact list. -/
theorem toggleLikes_iterate_even_of_not_mem (u : String) (n : Nat) (l : List String)
    (h : u ∉ l) : (toggleLikes u)^[2 * n] l = l := by
  induction n with
  | zero => simp
  | succ m ih =>
      have h2 : 2 * (m + 1) = 2 * m + 2 := by ring
      rw [h2]
      have : (toggleLikes u)^[2 * m + 2] l = (toggleLikes u)^[2 * m] (toggleLikes u (toggleLikes u l)) := by
        rw [Function.iterate_add_apply]
        rfl
      rw [this, toggleLikes_twice_of_not_mem u l h, ih]

/-- One toggle leaves the user with at most one occurrence. -/
theorem count_toggleLikes_le_one (u : String) (l : List String) :
    List.count u (toggleLikes u l) ≤ 1 := by
  by_cases hu : u ∈ l
  · rw [toggleLikes_of_mem u l hu]
    have h0 : List.count u (l.filter (fun x => x != u)) = 0 := by
      simp [List.count_eq_zero]
    omega
  · rw [toggleLikes_of_not_mem u l hu]
    have h0 : List.count u l = 0 := List.count_eq_zero.mpr hu
    simp [h0]

/-- C6 amended: the sequential like handler applies the pure toggle to
the likes set; an even number of toggles restores the likes set (same
members); an odd number of toggles starting from a state where the user
is absent (a fresh entity) leaves the user present exactly once; and
after any positive number of toggles the user occurs at most once. -/
theorem toggle_parity_and_uniqueness (u : String) (l : List String) (n : Nat) :
    applyAtomic (l.contains u) u l = toggleLikes u l ∧
    (∀ x, x ∈ (toggleLikes u)^[2 * n] l ↔ x ∈ l) ∧
    (u ∉ l → List.count u ((toggleLikes u)^[2 * n + 1] l) = 1) ∧
    (1 ≤ n → List.count u ((toggleLikes u)^[n] l) ≤ 1) := by
  refine ⟨applyAtomic_self_eq_toggle u l, fun x => mem_toggleLikes_iterate_even u n l x, ?_, ?_⟩
  · intro h
    rw [Function.iterate_succ_apply', toggleLikes_iterate_even_of_not_mem u n l h,
      toggleLikes_of_not_mem u l h]
    have h0 : List.count u l = 0 := List.count_eq_zero.mpr h
    simp [h0]
  · intro hn
    obtain ⟨m, rfl⟩ : ∃ m, n = m + 1 := ⟨n - 1, by omega⟩
    rw [Function.iterate_succ_apply']
    exact count_toggleLikes_le_one u _

/-- C6 counterexample: for a user already present in the likes set, a
single (odd) toggle leaves the user absent, not present exactly once. -/
theorem toggle_odd_fails_when_initially_liked
    : (toggleLikes "u1")^[1] ["u1"] = [] ∧
      List.count "u1" ((toggleLikes "u1")^[1] ["u1"]) ≠ 1 :=
  ⟨by decide, by decide⟩

/-- Witness for the amended C6: on the fresh empty likes set with user
u2, two toggles restore the set, one toggle yields exactly one
occurrence, and one toggle leaves at most one occurrence. -/
theorem toggle_parity_and_uniqueness_witness :
    ("u2" ∉ ([] : List String) ∧ 1 ≤ 1) ∧
    (applyAtomic (List.contains [] "u2") "u2" [] = toggleLikes "u2" [] ∧
     (∀ x, x ∈ (toggleLikes "u2")^[2 * 1] [] ↔ x ∈ ([] : List String)) ∧
     ("u2" ∉ ([] : List String) → List.count "u2" ((toggleLikes "u2")^[2 * 1 + 1] []) = 1) ∧
     (1 ≤ 1 → List.count "u2" ((toggleLikes "u2")^[1] []) ≤ 1)) :=
  ⟨⟨by decide, by decide⟩, toggle_parity_and_uniqueness "u2" [] 1⟩

/-- C7: every auth failure (credential missing, expired, malformed, or
resolving to no stored user) responds 401 with a body of shape success
false, a message, and an error code in the MISSING, EXPIRED, INVALID,
NOT_FOUND classes, spelled AUTH_TOKEN_MISSING, TOKEN_EXPIRED,
INVALID_TOKEN, USER_NOT_FOUND respectively by the middleware. -/
theorem authMiddleware_failures_are_structured_401
    (users : List String) (c : Credential) :
    (∀ st body, authMiddleware users c = Except.error (st, body) →
      st = 401 ∧ body.success = false ∧
      (body.error = "AUTH_TOKEN_MISSING" ∨ body.error = "TOKEN_EXPIRED" ∨
        body.error = "INVALID_TOKEN" ∨ body.error = "USER_NOT_FOUND")) ∧
    (c = Credential.missing →
      authMiddleware users c =
        Except.error (401, ⟨false, "No authentication token provided", "AUTH_TOKEN_MISSING"⟩)) ∧
    (c = Credential.expired →
      authMiddleware users c =
        Except.error (401, ⟨false, "Token has expired", "TOKEN_EXPIRED"⟩)) ∧
    (c = Credential.malformed →
      authMiddleware users c =
        Except.error (401, ⟨false, "Invalid token", "INVALID_TOKEN"⟩)) ∧
    (∀ uid, c = Credential.resolved uid → users.contains uid = false →
      authMiddleware users c =
        Except.error (401, ⟨false, "User not found", "USER_NOT_FOUND"⟩)) := by
  refine ⟨?_, ?_, ?_, ?_, ?_⟩
  · intro st body h
    cases c with
    | missing => injection h with h; cases h; exact ⟨rfl, rfl, Or.inl rfl⟩
    | expired => injection h with h; cases h; exact ⟨rfl, rfl, Or.inr (Or.inl rfl)⟩
    | malformed => injection h with h; cases h; exact ⟨rfl, rfl, Or.inr (Or.inr (Or.inl rfl))⟩
    | resolved uid =>
        simp only [authMiddleware] at h
        by_cases hu : users.contains uid = true
        · rw [if_pos hu] at h; cases h
        · rw [if_neg hu] at h
          injection h with h; cases h
          exact ⟨rfl, rfl, Or.inr (Or.inr (Or.inr rfl))⟩
  · rintro rfl; rfl
  · rintro rfl; rfl
  · rintro rfl; rfl
  · rintro uid rfl hu
    simp only [authMiddleware]
    rw [if_neg (by simp at hu; simp [hu])]

/-- Witness for C7: against the example user store, a missing credential
and a token resolving to the absent user u9 both yield the structured
401 bodies. -/
theorem authMiddleware_failures_are_structured_401_witness :
    (authMiddleware ["u1", "u2"] Credential.missing =
      Except.error (401, ⟨false, "No authentication token provided", "AUTH_TOKEN_MISSING"⟩)) ∧
    (List.contains ["u1", "u2"] "u9" = false) ∧
    (authMiddleware ["u1", "u2"] (Credential.resolved "u9") =
      Except.error (401, ⟨false, "User not found", "USER_NOT_FOUND"⟩)) :=
  ⟨(authMiddleware_failures_are_structured_401 ["u1", "u2"] Credential.missing).2.1 rfl,
   by decide,
   (authMiddleware_failures_are_structured_401 ["u1", "u2"]
      (Credential.resolved "u9")).2.2.2.2 "u9" rfl (by decide)⟩

/-- Request context of the race scenario: u2 toggles a like on post P1. -/
def exCtx : ReqCtx := ⟨"u2", "U2", pidA⟩

/-- Initial system state of the race scenario: the example store with two
identical pending like requests. -/
def exSys : Sys := ⟨exDB, ReqPhase.start, ReqPhase.start⟩

/-- The interleaving in which both requests read before either updates. -/
def raceSched : List Bool := [false, true, false, true]

/-- C9 counterexample: interleaving two like toggles by the same user u2
on post P1 (both pre-update reads, then both updates) passes the
notification gate twice: the trace contains exactly one genuine rising
edge of the likes membership, yet two like notifications are created. -/
theorem like_notify_race_two_notifications_one_edge
    : risingEdges "u2" pidA (dbTrace exCtx exCtx exSys raceSched) = 1 ∧
      (runSched exCtx exCtx exSys raceSched).db.notifs =
        [mkLikeNotif exPost "u2" "U2", mkLikeNotif exPost "u2" "U2"] :=
  ⟨rfl, rfl⟩

/-- C9 amended: the notification decision is gated by a membership check
read before the atomic update (posts.js lines 202-225), not by the
update's own pre and post images; in a sequential execution the two
coincide, so a notification is appended exactly when the acting user was
absent before the atomic update, present after it, and is not the owner
— but under interleaved executions the separately-timed reads can emit
two notifications for one genuine rising edge. -/
theorem likePost_gate_preread_sequential_iff
    (db : DB) (uid un pid : String) (post : Post)
    (hfind : findPostById db.posts pid = Except.ok (some post)) :
    ((likePost db uid un pid).db.notifs = db.notifs ++ [mkLikeNotif post uid un] ↔
      (post.likes.contains uid = false ∧
        (applyAtomic (post.likes.contains uid) uid post.likes).contains uid = true ∧
        post.user ≠ uid)) := by
  rw [likePost_found db uid un pid post hfind]
  cases h : post.likes.contains uid with
  | false =>
      by_cases ho : post.user = uid
      · simp [ho, applyAtomic, h]
      · have hb : (post.user != uid) = true := by simp [bne_iff_ne]; exact ho
        have hnm : uid ∉ post.likes := by simp at h; exact h
        simp [hb, ho, applyAtomic, h, hnm]
  | true =>
      simp [h]

/-- Witness for the amended C9: u2 likes post P1 sequentially; the gate
fires and the equivalence holds at this input. -/
theorem likePost_gate_preread_sequential_iff_witness :
    findPostById exDB.posts pidA = Except.ok (some exPost) ∧
    ((likePost exDB "u2" "U2" pidA).db.notifs = exDB.notifs ++ [mkLikeNotif exPost "u2" "U2"] ↔
      (exPost.likes.contains "u2" = false ∧
        (applyAtomic (exPost.likes.contains "u2") "u2" exPost.likes).contains "u2" = true ∧
        exPost.user ≠ "u2")) :=
  ⟨rfl, likePost_gate_preread_sequential_iff exDB "u2" "U2" pidA exPost rfl⟩

/-- Dispatch of a one-segment GET path on the posts router: /search goes
to the search handler, every other single segment is captured by /:id. -/
theorem dispatch_single_seg (x : String) :
    dispatchRoutes postsGetRoutes [x] =
      if ("search" == x) = true then some (PostsGetHandler.search, [])
      else some (PostsGetHandler.single, [("id", x)]) := by
  by_cases hx : ("search" == x) = true
  · simp [dispatchRoutes, postsGetRoutes, matchSegs, hx]
  · simp [dispatchRoutes, postsGetRoutes, matchSegs, hx]

/-- Dispatch of a path of two or more segments on the posts router: only
/user/:userId can match, and only at exactly two segments. -/
theorem dispatch_multi_seg (x y : String) (rest : List String) :
    dispatchRoutes postsGetRoutes (x :: y :: rest) =
      if ("user" == x) = true ∧ rest = [] then some (PostsGetHandler.userPosts, [("userId", y)])
      else none := by
  by_cases hu : ("user" == x) = true
  · have hx : "user" = x := by simpa using hu
    subst hx
    cases rest with
    | nil =>
        simp [dispatchRoutes, postsGetRoutes, matchSegs,
          show ("search" == "user") = false from rfl,
          show ("user" == "user") = true from rfl,
          show ("trending" == "user") = false from rfl]
    | cons z rs =>
        simp [dispatchRoutes, postsGetRoutes, matchSegs,
          show ("search" == "user") = false from rfl,
          show ("user" == "user") = true from rfl,
          show ("trending" == "user") = false from rfl]
  · cases rest with
    | nil => simp [dispatchRoutes, postsGetRoutes, matchSegs, hu]
    | cons z rs => simp [dispatchRoutes, postsGetRoutes, matchSegs, hu]

/-- C10: because /:id is registered before /trending, a GET request for
/posts/trending dispatches to the single post handler with id captured
as the string trending; no path at all dispatches to the trending
handler; and the single post handler on the id trending answers with its
error response from the invalid-identifier lookup (500 Server error),
whose body has no trendingPosts field. -/
theorem trending_route_shadowed_by_id (db : DB) :
    dispatchRoutes postsGetRoutes ["trending"] =
      some (PostsGetHandler.single, [("id", "trending")]) ∧
    (∀ path result, dispatchRoutes postsGetRoutes path = some result →
      result.1 ≠ PostsGetHandler.trending) ∧
    (getSinglePost db "trending").1 = 500 ∧
    Json.getField (getSinglePost db "trending").2 "trendingPosts" = none := by
  refine ⟨rfl, ?_, rfl, rfl⟩
  intro path result h
  rcases path with _ | ⟨x, _ | ⟨y, rest⟩⟩
  · have h2 : some (PostsGetHandler.index, ([] : List (String × String))) = some result := h
    rw [← Option.some.inj h2]
    decide
  · rw [dispatch_single_seg x] at h
    by_cases hx : ("search" == x) = true
    · rw [if_pos hx] at h
      rw [← Option.some.inj h]
      exact fun hcon => PostsGetHandler.noConfusion hcon
    · rw [if_neg hx] at h
      rw [← Option.some.inj h]
      exact fun hcon => PostsGetHandler.noConfusion hcon
  · rw [dispatch_multi_seg x y rest] at h
    by_cases hc : ("user" == x) = true ∧ rest = []
    · rw [if_pos hc] at h
      rw [← Option.some.inj h]
      exact fun hcon => PostsGetHandler.noConfusion hcon
    · rw [if_neg hc] at h
      cases h

/-- Witness for C10: the request GET /posts/trending itself, dispatched
to the single post handler, which is not the trending handler. -/
theorem trending_route_shadowed_by_id_witness :
    dispatchRoutes postsGetRoutes ["trending"] =
      some (PostsGetHandler.single, [("id", "trending")]) ∧
    (PostsGetHandler.single, [("id", "trending")]).1 ≠ PostsGetHandler.trending :=
  ⟨rfl, (trending_route_shadowed_by_id exDB).2.1 ["trending"]
    (PostsGetHandler.single, [("id", "trending")]) rfl⟩

end SociaLazy
